import Mathlib

/-!
Verification of the homework reconciliation core of `src/app.py`.

The reconciliation engine (identifier extraction, roster building, submission
classification, reconciliation statistics) is shallowly embedded below.
Python dictionaries are modelled as association lists with Python assignment
semantics (update in place if the key is present, append otherwise); Python
floats appearing in the submission-rate computation are modelled as exact
rationals with round-half-to-even; file bytes are lists of naturals.
-/

namespace App

/-- A Python value as it reaches `extract_id`: a `str`, or a non-string value
that `extract_id` coerces with `str()` before scanning
(`if not isinstance(text, str): text = str(text)`). -/
inductive PyVal where
  | pstr (s : String)
  | pint (n : Int)
  | pnan
  deriving DecidableEq

/-- Python `str()` on the values of `PyVal`: a string is itself, an integer
prints in decimal, the float NaN prints as "nan". -/
def py_str : PyVal → String
  | .pstr s => s
  | .pint n => toString n
  | .pnan => "nan"

/-- Position `i` of the character list starts a window of 9 consecutive digit
characters (the shape matched by the regex in `extract_id`). -/
def windowOk (l : List Char) (i : Nat) : Prop :=
  i + 9 ≤ l.length ∧ ((l.drop i).take 9).all Char.isDigit = true

instance (l : List Char) (i : Nat) : Decidable (windowOk l i) := by
  unfold windowOk; infer_instance

/-- The search performed by `re.search(r'\d{9}', text)`: scan start positions
left to right and return the first 9-digit window, if any. -/
def findRun9 : List Char → Option (List Char)
  | [] => none
  | c :: cs => if windowOk (c :: cs) 0 then some ((c :: cs).take 9) else findRun9 cs

/-- `extract_id` of `src/app.py` (lines 42-47): coerce the input to a string
and return the first 9-digit run, if any. -/
def extract_id (text : PyVal) : Option String :=
  (findRun9 (py_str text).data).map String.mk

/-- A roster cell as pandas delivers it with `dtype=str`: a string, or the
NaN placeholder of a missing cell (modelled as `none`). -/
abbrev Cell := Option String

abbrev Row := List Cell

/-- Cell stringification used to build the identifier-search string:
`row.fillna("").astype(str)` turns a missing cell into the empty string. -/
def fillStr (c : Cell) : String := c.getD ""

/-- `row_str = " ".join(row.fillna("").astype(str).values)` (line 180). -/
def row_str (row : Row) : String := String.intercalate " " (row.map fillStr)

/-- Cell stringification used in the display-name loop (line 185):
`str(item)` on the raw `row.values`, where a missing cell is the float NaN,
whose Python string form is "nan". -/
def cellStr : Cell → String
  | none => "nan"
  | some s => s

/-- Python `str.isdigit()`: non-empty and every character a digit. -/
def pyIsDigit (s : String) : Bool := s.length != 0 && s.data.all Char.isDigit

/-- Python `str.strip()`: remove leading and trailing whitespace. -/
def pyStrip (s : String) : String :=
  String.mk (((s.data.dropWhile Char.isWhitespace).reverse.dropWhile Char.isWhitespace).reverse)

/-- Python `str.startswith(pre)`. -/
def pyStartsWith (s pre : String) : Bool := pre.data.isPrefixOf s.data

/-- The display-name condition of line 186: the stripped cell value differs
from the extracted identifier, is not purely numeric, and has length at
least 2. -/
def qualifies (sid : String) (c : Cell) : Prop :=
  pyStrip (cellStr c) ≠ sid ∧ pyIsDigit (pyStrip (cellStr c)) = false ∧
    2 ≤ (pyStrip (cellStr c)).length

instance (sid : String) (c : Cell) : Decidable (qualifies sid c) := by
  unfold qualifies; infer_instance

/-- The display-name loop of lines 183-189: the first qualifying stripped
cell value, defaulting to the sentinel "未知姓名" (unknown name). -/
def pick_name (sid : String) : Row → String
  | [] => "未知姓名"
  | c :: cs => if qualifies sid c then pyStrip (cellStr c) else pick_name sid cs

/-- Modelled from the spec: the display-name selection as the specification
words it, scanning cell values in original order with a missing cell coerced
to the empty string, and picking the first value that differs from the
identifier, is not purely numeric, and has length at least 2. -/
def pick_name_spec (sid : String) : Row → String
  | [] => "未知姓名"
  | c :: cs =>
    if c.getD "" ≠ sid ∧ pyIsDigit (c.getD "") = false ∧ 2 ≤ (c.getD "").length
    then c.getD "" else pick_name_spec sid cs

/-- Python dict assignment `d[k] = v`: replace the value at the first
occurrence of the key, keeping its position, or append a new binding. -/
def dictInsert {α β : Type} [DecidableEq α] : List (α × β) → α → β → List (α × β)
  | [], k, v => [(k, v)]
  | p :: ps, k, v => if p.1 = k then (k, v) :: ps else p :: dictInsert ps k v

/-- Python dict lookup `d[k]` (as an option). -/
def dictGet {α β : Type} [DecidableEq α] (d : List (α × β)) (k : α) : Option β :=
  (d.find? (fun p => decide (p.1 = k))).map Prod.snd

/-- The roster-loading loop of lines 178-189: for each row, search the
space-joined row string for a 9-digit identifier; on success assign
`roster_dict[sid] = name` with the display name picked from the raw cells. -/
def load_roster (rows : List Row) : List (String × String) :=
  rows.foldl
    (fun d row =>
      match extract_id (PyVal.pstr (row_str row)) with
      | none => d
      | some sid => dictInsert d sid (pick_name sid row))
    []

/-- An uploaded homework file: its name and its raw bytes. -/
structure UploadedFile where
  name : String
  content : List Nat
  deriving DecidableEq, Inhabited

/-- `f.size`: the byte length of the upload. -/
def UploadedFile.size (f : UploadedFile) : Nat := f.content.length

/-- `get_md5` of lines 36-40. `hashlib.md5` is external library code; the
spec's ContentDigest contract ("two files share a digest if and only if
content bytes are byte-identical") is modelled by an injective digest,
represented here by the byte sequence itself. -/
def get_md5 (file_bytes : List Nat) : List Nat := file_bytes

/-- A record of the anomalous/empty-file list (line 215); the source stores
the size formatted as the string `f"{f_size}B"`. -/
structure EmptyRec where
  sid : String
  name : String
  fname : String
  sizeStr : String
  deriving DecidableEq, Inhabited

/-- The mutable state of the homework classification loop (lines 199-219). -/
structure ClassifyState where
  submitted_data : List String
  files_map : List (String × UploadedFile)
  md5_map : List (List Nat × List (String × String))
  empty_files : List EmptyRec
  deriving DecidableEq, Inhabited

def initState : ClassifyState :=
  { submitted_data := [], files_map := [], md5_map := [], empty_files := [] }

/-- `if f_md5 not in md5_map: md5_map[f_md5] = []` followed by
`md5_map[f_md5].append(v)`: extend the group at the key, keeping its
position, or append a fresh singleton group. -/
def mapAppend {κ ν : Type} [DecidableEq κ] : List (κ × List ν) → κ → ν → List (κ × List ν)
  | [], k, v => [(k, [v])]
  | p :: ps, k, v => if p.1 = k then (p.1, p.2 ++ [v]) :: ps else p :: mapAppend ps k v

/-- The group stored at a key of a grouping dict (empty when absent). -/
def groupGet {κ ν : Type} [DecidableEq κ] (m : List (κ × List ν)) (k : κ) : List ν :=
  ((m.find? (fun p => decide (p.1 = k))).map Prod.snd).getD []

/-- One iteration of the classification loop (lines 205-219): skip reserved
prefixes, extract the identifier from the filename, require it on the
roster, record the file and the submission, then route the file to the
anomalous list (size below 100 bytes) or to its digest group. -/
def classify_step (roster_dict : List (String × String)) (all_students : Finset String)
    (st : ClassifyState) (f : UploadedFile) : ClassifyState :=
  if pyStartsWith f.name "~$" || pyStartsWith f.name "." then st
  else
    match extract_id (PyVal.pstr f.name) with
    | none => st
    | some sid =>
      if sid ∈ all_students then
        if f.size < 100 then
          { submitted_data := st.submitted_data ++ [sid],
            files_map := dictInsert st.files_map f.name f,
            md5_map := st.md5_map,
            empty_files := st.empty_files ++
              [{ sid := sid, name := (dictGet roster_dict sid).getD "",
                 fname := f.name, sizeStr := toString f.size ++ "B" }] }
        else
          { submitted_data := st.submitted_data ++ [sid],
            files_map := dictInsert st.files_map f.name f,
            md5_map := mapAppend st.md5_map (get_md5 f.content) (sid, f.name),
            empty_files := st.empty_files }
      else st

/-- The whole classification loop over the uploaded batch. -/
def classify (roster_dict : List (String × String)) (all_students : Finset String)
    (files : List UploadedFile) : ClassifyState :=
  files.foldl (classify_step roster_dict all_students) initState

/-- Round-half-to-even to an integer, the rounding used by Python `round`. -/
def roundHalfEven (q : ℚ) : ℤ :=
  if q - ⌊q⌋ < 1 / 2 then ⌊q⌋
  else if 1 / 2 < q - ⌊q⌋ then ⌊q⌋ + 1
  else if ⌊q⌋ % 2 = 0 then ⌊q⌋ else ⌊q⌋ + 1

/-- Python `round(x, 1)` modelled over exact rationals. -/
def pyRound1 (q : ℚ) : ℚ := (roundHalfEven (q * 10) : ℚ) / 10

/-- The fatal error of the run: the roster yielded no identifiers
(lines 191-193, `st.error` followed by `st.stop`). -/
inductive AppError where
  | rosterEmpty
  deriving DecidableEq, Inhabited

/-- The reconciliation outputs of one run (sections 1-3 of the main logic). -/
structure Result where
  roster_dict : List (String × String)
  all_students : Finset String
  submitted_ids : Finset String
  missing_ids : Finset String
  submit_rate : ℚ
  files_map : List (String × UploadedFile)
  md5_map : List (List Nat × List (String × String))
  empty_files : List EmptyRec
  deriving DecidableEq, Inhabited

/-- The run: load the roster, abort when no identifier was found, classify
the uploaded batch, and compute the reconciliation statistics
(lines 176-224). -/
def run_pipeline (rows : List Row) (files : List UploadedFile) : Except AppError Result :=
  let roster_dict := load_roster rows
  let all_students : Finset String := (roster_dict.map Prod.fst).toFinset
  if all_students = ∅ then Except.error AppError.rosterEmpty
  else
    let st := classify roster_dict all_students files
    let submitted_ids : Finset String := st.submitted_data.toFinset
    Except.ok
      { roster_dict := roster_dict,
        all_students := all_students,
        submitted_ids := submitted_ids,
        missing_ids := all_students \ submitted_ids,
        submit_rate := pyRound1 ((submitted_ids.card : ℚ) / (all_students.card : ℚ) * 100),
        files_map := st.files_map,
        md5_map := st.md5_map,
        empty_files := st.empty_files }

/-! ## Helper lemmas -/

theorem windowOk_cons_succ (c : Char) (cs : List Char) (i : Nat) :
    windowOk (c :: cs) (i + 1) ↔ windowOk cs i := by
  unfold windowOk
  rw [List.drop_succ_cons]
  constructor
  · rintro ⟨h1, h2⟩
    refine ⟨?_, h2⟩
    simp only [List.length_cons] at h1
    omega
  · rintro ⟨h1, h2⟩
    refine ⟨?_, h2⟩
    simp only [List.length_cons]
    omega

theorem findRun9_eq_some (l : List Char) :
    ∀ i : Nat, windowOk l i → (∀ j, j < i → ¬ windowOk l j) →
      findRun9 l = some ((l.drop i).take 9) := by
  induction l with
  | nil =>
    intro i hi _
    have := hi.1
    simp at this
  | cons c cs ih =>
    intro i hi hmin
    by_cases h0 : windowOk (c :: cs) 0
    · have hi0 : i = 0 := by
        by_contra h
        exact hmin 0 (Nat.pos_of_ne_zero h) h0
      subst hi0
      simp [findRun9, h0]
    · match i with
      | 0 => exact absurd hi h0
      | i + 1 =>
        have hcs : windowOk cs i := (windowOk_cons_succ c cs i).mp hi
        have hmin' : ∀ j, j < i → ¬ windowOk cs j := fun j hj hw =>
          hmin (j + 1) (Nat.succ_lt_succ hj) ((windowOk_cons_succ c cs j).mpr hw)
        rw [show findRun9 (c :: cs) = findRun9 cs from by simp [findRun9, h0]]
        rw [ih i hcs hmin']
        rfl

theorem findRun9_eq_none : ∀ l : List Char, (∀ j, ¬ windowOk l j) → findRun9 l = none := by
  intro l
  induction l with
  | nil => intro _; rfl
  | cons c cs ih =>
    intro h
    rw [show findRun9 (c :: cs) = findRun9 cs from by simp [findRun9, h 0]]
    exact ih fun j hw => h (j + 1) ((windowOk_cons_succ c cs j).mpr hw)

theorem not_windowOk_of_ball (l : List Char) (h : ∀ j, j < l.length → ¬ windowOk l j) :
    ∀ j, ¬ windowOk l j := by
  intro j hw
  have h1 := hw.1
  exact h j (by omega) hw

theorem dictGet_nil {α β : Type} [DecidableEq α] (q : α) :
    dictGet ([] : List (α × β)) q = none := rfl

theorem dictGet_cons {α β : Type} [DecidableEq α] (x : α × β) (xs : List (α × β)) (q : α) :
    dictGet (x :: xs) q = if x.1 = q then some x.2 else dictGet xs q := by
  by_cases h : x.1 = q
  · rw [if_pos h]
    unfold dictGet
    rw [List.find?_cons_of_pos _ (by simpa using h)]
    rfl
  · rw [if_neg h]
    unfold dictGet
    rw [List.find?_cons_of_neg _ (by simpa using h)]

theorem groupGet_nil {κ ν : Type} [DecidableEq κ] (q : κ) :
    groupGet ([] : List (κ × List ν)) q = [] := rfl

theorem groupGet_cons {κ ν : Type} [DecidableEq κ] (x : κ × List ν) (xs : List (κ × List ν))
    (q : κ) : groupGet (x :: xs) q = if x.1 = q then x.2 else groupGet xs q := by
  by_cases h : x.1 = q
  · rw [if_pos h]
    unfold groupGet
    rw [List.find?_cons_of_pos _ (by simpa using h)]
    rfl
  · rw [if_neg h]
    unfold groupGet
    rw [List.find?_cons_of_neg _ (by simpa using h)]

theorem dictGet_dictInsert_self {α β : Type} [DecidableEq α] :
    ∀ (d : List (α × β)) (k : α) (v : β), dictGet (dictInsert d k v) k = some v := by
  intro d k v
  induction d with
  | nil => simp [dictInsert, dictGet_cons, dictGet_nil]
  | cons p ps ih =>
    by_cases h : p.1 = k
    · simp [dictInsert, h, dictGet_cons]
    · simp [dictInsert, h, dictGet_cons, ih]

theorem groupGet_mapAppend_self {κ ν : Type} [DecidableEq κ] :
    ∀ (m : List (κ × List ν)) (k : κ) (v : ν),
      groupGet (mapAppend m k v) k = groupGet m k ++ [v] := by
  intro m k v
  induction m with
  | nil => simp [mapAppend, groupGet_cons, groupGet_nil]
  | cons p ps ih =>
    by_cases h : p.1 = k
    · simp [mapAppend, h, groupGet_cons]
    · simp [mapAppend, h, groupGet_cons, ih]

theorem groupGet_mapAppend_ne {κ ν : Type} [DecidableEq κ] :
    ∀ (m : List (κ × List ν)) (k q : κ) (v : ν), q ≠ k →
      groupGet (mapAppend m k v) q = groupGet m q := by
  intro m k q v hqk
  have hkq : k ≠ q := fun hh => hqk hh.symm
  induction m with
  | nil => simp [mapAppend, groupGet_cons, groupGet_nil, hkq]
  | cons p ps ih =>
    by_cases h : p.1 = k
    · have hpq : p.1 ≠ q := by rw [h]; exact hkq
      simp [mapAppend, h, groupGet_cons, hpq, hkq]
    · by_cases hq : p.1 = q
      · simp [mapAppend, h, groupGet_cons, hq, hqk]
      · simp [mapAppend, h, groupGet_cons, hq, ih]

theorem mapAppend_length_sum {κ ν : Type} [DecidableEq κ] :
    ∀ (m : List (κ × List ν)) (k : κ) (v : ν),
      ((mapAppend m k v).map fun p => p.2.length).sum =
        ((m.map fun p => p.2.length).sum) + 1 := by
  intro m k v
  induction m with
  | nil => simp [mapAppend]
  | cons p ps ih =>
    by_cases h : p.1 = k
    · simp [mapAppend, h]
      omega
    · simp [mapAppend, h, ih]
      omega

theorem classify_step_small (roster_dict : List (String × String)) (all_students : Finset String)
    (st : ClassifyState) (f : UploadedFile) (sid : String)
    (h1 : pyStartsWith f.name "~$" = false) (h2 : pyStartsWith f.name "." = false)
    (h3 : extract_id (PyVal.pstr f.name) = some sid) (h4 : sid ∈ all_students)
    (h5 : f.size < 100) :
    classify_step roster_dict all_students st f =
      { submitted_data := st.submitted_data ++ [sid],
        files_map := dictInsert st.files_map f.name f,
        md5_map := st.md5_map,
        empty_files := st.empty_files ++
          [{ sid := sid, name := (dictGet roster_dict sid).getD "",
             fname := f.name, sizeStr := toString f.size ++ "B" }] } := by
  unfold classify_step
  rw [h1, h2, h3]
  simp [h4, h5]

theorem classify_step_big (roster_dict : List (String × String)) (all_students : Finset String)
    (st : ClassifyState) (f : UploadedFile) (sid : String)
    (h1 : pyStartsWith f.name "~$" = false) (h2 : pyStartsWith f.name "." = false)
    (h3 : extract_id (PyVal.pstr f.name) = some sid) (h4 : sid ∈ all_students)
    (h5 : ¬ f.size < 100) :
    classify_step roster_dict all_students st f =
      { submitted_data := st.submitted_data ++ [sid],
        files_map := dictInsert st.files_map f.name f,
        md5_map := mapAppend st.md5_map (get_md5 f.content) (sid, f.name),
        empty_files := st.empty_files } := by
  unfold classify_step
  rw [h1, h2, h3]
  simp [h4, h5]

theorem classify_step_submitted_mem (roster_dict : List (String × String))
    (all_students : Finset String) (st : ClassifyState) (f : UploadedFile) (s : String)
    (hs : s ∈ (classify_step roster_dict all_students st f).submitted_data) :
    s ∈ st.submitted_data ∨ s ∈ all_students := by
  unfold classify_step at hs
  split at hs
  · exact Or.inl hs
  · split at hs
    · exact Or.inl hs
    · next sid heq =>
      split at hs
      · next hmem =>
        split at hs
        · simp only [List.mem_append, List.mem_singleton] at hs
          rcases hs with hs | hs
          · exact Or.inl hs
          · subst hs
            exact Or.inr hmem
        · simp only [List.mem_append, List.mem_singleton] at hs
          rcases hs with hs | hs
          · exact Or.inl hs
          · subst hs
            exact Or.inr hmem
      · exact Or.inl hs

theorem classify_submitted_mem (roster_dict : List (String × String))
    (all_students : Finset String) :
    ∀ (files : List UploadedFile) (st : ClassifyState) (s : String),
      s ∈ (files.foldl (classify_step roster_dict all_students) st).submitted_data →
      s ∈ st.submitted_data ∨ s ∈ all_students := by
  intro files
  induction files with
  | nil =>
    intro st s hs
    exact Or.inl hs
  | cons f fs ih =>
    intro st s hs
    rcases ih (classify_step roster_dict all_students st f) s hs with h | h
    · exact classify_step_submitted_mem roster_dict all_students st f s h
    · exact Or.inr h

theorem load_roster_foldl_none :
    ∀ (rows : List Row) (d : List (String × String)),
      (∀ row ∈ rows, extract_id (PyVal.pstr (row_str row)) = none) →
      rows.foldl
        (fun d row =>
          match extract_id (PyVal.pstr (row_str row)) with
          | none => d
          | some sid => dictInsert d sid (pick_name sid row))
        d = d := by
  intro rows
  induction rows with
  | nil => intro d _; rfl
  | cons r rs ih =>
    intro d h
    rw [List.foldl_cons]
    rw [show (match extract_id (PyVal.pstr (row_str r)) with
          | none => d
          | some sid => dictInsert d sid (pick_name sid r)) = d from by
        rw [h r (List.mem_cons_self r rs)]]
    exact ih d fun row hm => h row (List.mem_cons_of_mem r hm)

/-- Total number of classification records a state holds: anomalous-file
records plus entries across all digest groups. -/
def entryCount (st : ClassifyState) : Nat :=
  st.empty_files.length + (st.md5_map.map fun p => p.2.length).sum

/-! ## Concrete fixtures used by witnesses -/

/-- A two-student roster: 123456789 Alice, 987654321 Bob. -/
def exRows : List Row := [[some "123456789", some "Alice"], [some "987654321", some "Bob"]]

/-- One valid submission of 120 bytes for student 123456789. -/
def exFiles : List UploadedFile :=
  [{ name := "123456789_hw.pdf", content := List.replicate 120 65 }]

def exRes : Result := ((run_pipeline exRows exFiles).toOption).getD default

def exRosterDict : List (String × String) := load_roster exRows

def exAll : Finset String := (exRosterDict.map Prod.fst).toFinset

/-! ## Claim theorems -/

/-- C3: for every string with at least one 9-digit run, extract_id returns
the leftmost 9-digit window in left-to-right scan order (so the first 9
digits of a longer run); for strings with no 9-digit run it returns none;
a non-string input is coerced to its string representation before the scan.
Purity is inherent in the embedding: extract_id is a function of its
argument alone. -/
theorem C3_extract_id_leftmost :
    (∀ (s : String) (i : Nat), windowOk s.data i → (∀ j, j < i → ¬ windowOk s.data j) →
        extract_id (PyVal.pstr s) = some (String.mk ((s.data.drop i).take 9))) ∧
    (∀ s : String, (∀ j, ¬ windowOk s.data j) → extract_id (PyVal.pstr s) = none) ∧
    (∀ v : PyVal, extract_id v = extract_id (PyVal.pstr (py_str v))) := by
  refine ⟨?_, ?_, ?_⟩
  · intro s i hi hmin
    unfold extract_id
    rw [show py_str (PyVal.pstr s) = s from rfl, findRun9_eq_some s.data i hi hmin]
    rfl
  · intro s h
    unfold extract_id
    rw [show py_str (PyVal.pstr s) = s from rfl, findRun9_eq_none s.data h]
    rfl
  · intro v
    rfl

/-- C3 witness: a 10-digit run yields its first 9 digits; a string without
9 consecutive digits yields none; an integer input is coerced to its
decimal string. -/
theorem C3_extract_id_leftmost_witness :
    extract_id (PyVal.pstr "ab1234567890xy") = some "123456789" ∧
      extract_id (PyVal.pstr "no id here 20240001") = none ∧
      extract_id (PyVal.pint 1234567890) = some "123456789" := by
  refine ⟨?_, ?_, ?_⟩
  · have h := C3_extract_id_leftmost.1 "ab1234567890xy" 2 (by decide)
      (by decide)
    rw [h]
    decide
  · exact C3_extract_id_leftmost.2.1 "no id here 20240001"
      (not_windowOk_of_ball _ (by decide))
  · rw [C3_extract_id_leftmost.2.2 (PyVal.pint 1234567890)]
    decide

/-- C2 counterexample: two roster rows carry the same identifier 123456789,
the first with display name Alice, the second with Bob; the produced entry
is Bob, the one from the last row, not the first occurrence as claimed. -/
theorem C2_first_wins_counterexample :
    dictGet (load_roster [[some "123456789", some "Alice"], [some "123456789", some "Bob"]])
        "123456789" = some "Bob" ∧
      pick_name "123456789" [some "123456789", some "Alice"] = "Alice" ∧
      ("Bob" : String) ≠ "Alice" := by
  refine ⟨by decide, by decide, by decide⟩

/-- C2 amended: when several rows yield the same identifier, the LAST such
row wins: appending a row that yields an identifier overwrites the roster
entry for that identifier with that row's display name (Python dict
assignment replaces the stored value). The mapping is a pure function of
the row list, hence deterministic in input row order. -/
theorem C2_duplicate_identifier_last_wins (rows : List Row) (row : Row) (sid : String)
    (h : extract_id (PyVal.pstr (row_str row)) = some sid) :
    dictGet (load_roster (rows ++ [row])) sid = some (pick_name sid row) := by
  unfold load_roster
  rw [List.foldl_append, List.foldl_cons, List.foldl_nil, h]
  exact dictGet_dictInsert_self _ _ _

/-- C2 witness: the amended last-wins rule at the concrete duplicate rows. -/
theorem C2_duplicate_identifier_last_wins_witness :
    dictGet (load_roster ([[some "123456789", some "Alice"]] ++ [[some "123456789", some "Bob"]]))
      "123456789" = some "Bob" := by
  have h := C2_duplicate_identifier_last_wins [[some "123456789", some "Alice"]]
    [some "123456789", some "Bob"] "123456789" (by decide)
  rw [h]
  decide

/-- C7 counterexample: in the row (missing, "123456789", "Alice") the claim
prescribes display name Alice (a missing cell coerced to the empty string
never qualifies), but the code stringifies the raw NaN cell to "nan",
which qualifies, so the roster entry gets display name "nan". -/
theorem C7_missing_cell_counterexample :
    dictGet (load_roster [[none, some "123456789", some "Alice"]]) "123456789" = some "nan" ∧
      pick_name_spec "123456789" [none, some "123456789", some "Alice"] = "Alice" ∧
      ("nan" : String) ≠ "Alice" := by
  refine ⟨by decide, by decide, by decide⟩

/-- C7 amended: the display name is the first stripped cell value, scanned
in original cell order with a missing cell coerced to the string "nan"
(Python str of the NaN placeholder), that differs from the identifier, is
not purely numeric, and has length at least 2; if no cell qualifies, the
sentinel unknown-name value is used. -/
theorem C7_display_name_first_qualifying :
    (∀ (sid : String) (row : Row) (i : Nat) (c : Cell),
        row.get? i = some c → qualifies sid c →
        (∀ j c', j < i → row.get? j = some c' → ¬ qualifies sid c') →
        pick_name sid row = pyStrip (cellStr c)) ∧
    (∀ (sid : String) (row : Row), (∀ c ∈ row, ¬ qualifies sid c) →
        pick_name sid row = "未知姓名") := by
  constructor
  · intro sid row
    induction row with
    | nil =>
      intro i c hget _ _
      simp at hget
    | cons c0 cs ih =>
      intro i c hget hq hmin
      match i with
      | 0 =>
        simp only [List.get?_cons_zero, Option.some.injEq] at hget
        subst hget
        simp [pick_name, hq]
      | i + 1 =>
        have h0 : ¬ qualifies sid c0 :=
          hmin 0 c0 (Nat.succ_pos i) (by simp)
        simp only [List.get?_cons_succ] at hget
        rw [show pick_name sid (c0 :: cs) = pick_name sid cs from by simp [pick_name, h0]]
        exact ih i c hget hq fun j c' hj hg =>
          hmin (j + 1) c' (Nat.succ_lt_succ hj) (by simpa using hg)
  · intro sid row
    induction row with
    | nil => intro _; rfl
    | cons c0 cs ih =>
      intro h
      have h0 : ¬ qualifies sid c0 := h c0 (List.mem_cons_self c0 cs)
      rw [show pick_name sid (c0 :: cs) = pick_name sid cs from by simp [pick_name, h0]]
      exact ih fun c hc => h c (List.mem_cons_of_mem c0 hc)

/-- C7 witness: the amended rule at the counterexample row (the missing
cell itself is the first qualifying cell and yields "nan") and at a row
with no qualifying cell. -/
theorem C7_display_name_first_qualifying_witness :
    pick_name "123456789" [none, some "123456789", some "Alice"] = "nan" ∧
      pick_name "987654321" [some "987654321", some "7"] = "未知姓名" := by
  constructor
  · have h := C7_display_name_first_qualifying.1 "123456789"
      [none, some "123456789", some "Alice"] 0 none (by decide) (by decide)
      (fun j c' hj _ => absurd hj (Nat.not_lt_zero j))
    rw [h]
    decide
  · exact C7_display_name_first_qualifying.2 "987654321" [some "987654321", some "7"]
      (by decide)

/-- C9: when no roster row yields an identifier, the run aborts with the
roster-empty error before any reconciliation output exists: the pipeline
returns the error and no Result (classification, statistics, report data)
is produced. -/
theorem C9_empty_roster_aborts (rows : List Row) (files : List UploadedFile)
    (h : ∀ row ∈ rows, extract_id (PyVal.pstr (row_str row)) = none) :
    run_pipeline rows files = Except.error AppError.rosterEmpty := by
  have hlr : load_roster rows = [] := load_roster_foldl_none rows [] h
  unfold run_pipeline
  rw [hlr]
  rfl

/-- C9 witness: a roster whose rows contain no 9-digit run aborts the run. -/
theorem C9_empty_roster_aborts_witness :
    run_pipeline [[some "name only"], [none, some "20240001"]] exFiles =
      Except.error AppError.rosterEmpty :=
  C9_empty_roster_aborts [[some "name only"], [none, some "20240001"]] exFiles (by decide)

/-- C1: on every successful run, the submitted-identifier set and the
missing-identifier set are disjoint and their union is the full set of
roster identifiers. -/
theorem C1_submitted_missing_partition (rows : List Row) (files : List UploadedFile)
    (res : Result) (h : run_pipeline rows files = Except.ok res) :
    res.submitted_ids ∪ res.missing_ids = res.all_students ∧
      res.submitted_ids ∩ res.missing_ids = ∅ := by
  unfold run_pipeline at h
  simp only [] at h
  split at h
  · exact absurd h (by simp)
  · injection h with h
    subst h
    have hsub : ((classify (load_roster rows) ((load_roster rows).map Prod.fst).toFinset
        files).submitted_data.toFinset : Finset String) ⊆
        ((load_roster rows).map Prod.fst).toFinset := by
      intro s hs
      rw [List.mem_toFinset] at hs
      rcases classify_submitted_mem (load_roster rows)
          ((load_roster rows).map Prod.fst).toFinset files initState s hs with h | h
      · exact absurd h (List.not_mem_nil s)
      · exact h
    exact ⟨Finset.union_sdiff_of_subset hsub, Finset.inter_sdiff_self _ _⟩

/-- C1 witness: the partition invariant at a concrete two-student roster
with one submission. -/
theorem C1_submitted_missing_partition_witness :
    exRes.submitted_ids ∪ exRes.missing_ids = exRes.all_students ∧
      exRes.submitted_ids ∩ exRes.missing_ids = ∅ :=
  C1_submitted_missing_partition exRows exFiles exRes rfl

/-- C8: on every successful run the roster is non-empty and the reported
submission rate is exactly round-half-even of 100 * submitted / roster to
one decimal, computed over exact rationals; at roster size 40 with 31
submitted the rate is exactly 77.5. -/
theorem C8_submit_rate_formula (rows : List Row) (files : List UploadedFile)
    (res : Result) (h : run_pipeline rows files = Except.ok res) :
    0 < res.all_students.card ∧
      res.submit_rate =
        pyRound1 (100 * (res.submitted_ids.card : ℚ) / (res.all_students.card : ℚ)) ∧
      (res.all_students.card = 40 → res.submitted_ids.card = 31 → res.submit_rate = 155 / 2) := by
  unfold run_pipeline at h
  simp only [] at h
  split at h
  · exact absurd h (by simp)
  · next hne =>
    injection h with h
    subst h
    refine ⟨Finset.card_pos.mpr (Finset.nonempty_iff_ne_empty.mpr hne), ?_, ?_⟩
    · show pyRound1 (_ / _ * 100) = pyRound1 (100 * _ / _)
      congr 1
      ring
    · intro h40 h31
      show pyRound1 (_ / _ * 100) = 155 / 2
      rw [h40, h31]
      have harg : ((31 : ℕ) : ℚ) / ((40 : ℕ) : ℚ) * 100 * 10 = ((775 : ℤ) : ℚ) := by
        norm_num
      unfold pyRound1 roundHalfEven
      rw [harg, Int.floor_intCast]
      norm_num

/-- C8 witness: the rate formula instantiated at the concrete run with a
two-student roster and one submission. -/
theorem C8_submit_rate_formula_witness :
    0 < exRes.all_students.card ∧
      exRes.submit_rate =
        pyRound1 (100 * (exRes.submitted_ids.card : ℚ) / (exRes.all_students.card : ℚ)) ∧
      (exRes.all_students.card = 40 → exRes.submitted_ids.card = 31 →
        exRes.submit_rate = 155 / 2) :=
  C8_submit_rate_formula exRows exFiles exRes rfl

/-- C4: a non-excluded file (no reserved prefix, identifier extracted and on
the roster) is routed to exactly one bucket: below 100 bytes it adds one
record to the anomalous list and leaves every digest group unchanged;
otherwise it leaves the anomalous list unchanged, appends exactly one entry
to the digest group of its content, and leaves every other digest group
unchanged. -/
theorem C4_exactly_one_bucket (roster_dict : List (String × String))
    (all_students : Finset String) (st : ClassifyState) (f : UploadedFile) (sid : String)
    (h1 : pyStartsWith f.name "~$" = false) (h2 : pyStartsWith f.name "." = false)
    (h3 : extract_id (PyVal.pstr f.name) = some sid) (h4 : sid ∈ all_students) :
    (f.size < 100 →
        (classify_step roster_dict all_students st f).empty_files =
            st.empty_files ++
              [{ sid := sid, name := (dictGet roster_dict sid).getD "",
                 fname := f.name, sizeStr := toString f.size ++ "B" }] ∧
          (classify_step roster_dict all_students st f).md5_map = st.md5_map) ∧
    (100 ≤ f.size →
        (classify_step roster_dict all_students st f).empty_files = st.empty_files ∧
          groupGet (classify_step roster_dict all_students st f).md5_map (get_md5 f.content) =
            groupGet st.md5_map (get_md5 f.content) ++ [(sid, f.name)] ∧
          ∀ k, k ≠ get_md5 f.content →
            groupGet (classify_step roster_dict all_students st f).md5_map k =
              groupGet st.md5_map k) := by
  constructor
  · intro h5
    rw [classify_step_small roster_dict all_students st f sid h1 h2 h3 h4 h5]
    exact ⟨rfl, rfl⟩
  · intro h5
    rw [classify_step_big roster_dict all_students st f sid h1 h2 h3 h4 (by omega)]
    exact ⟨rfl, groupGet_mapAppend_self _ _ _,
      fun k hk => groupGet_mapAppend_ne _ _ _ _ hk⟩

/-- C4 witness: a 3-byte submission lands in the anomalous list (with its
roster display name and formatted size) and in no digest group. -/
theorem C4_exactly_one_bucket_witness :
    (classify_step exRosterDict exAll initState
          { name := "123456789_a.txt", content := [65, 66, 67] }).empty_files =
        [{ sid := "123456789", name := "Alice", fname := "123456789_a.txt",
           sizeStr := "3B" }] ∧
      (classify_step exRosterDict exAll initState
          { name := "123456789_a.txt", content := [65, 66, 67] }).md5_map = [] := by
  have h := (C4_exactly_one_bucket exRosterDict exAll initState
      { name := "123456789_a.txt", content := [65, 66, 67] } "123456789"
      (by decide) (by decide) (by decide) (by decide)).1 (by decide)
  constructor
  · rw [h.1]
    decide
  · rw [h.2]
    rfl

/-- C5: for non-excluded, non-anomalous files the digest key of a file is a
function of its content bytes alone, and two digest keys are equal exactly
when the content bytes are byte-identical (two files differing in a single
byte get different keys); each such file's entry is appended to precisely
the group of its own digest, irrespective of its filename. -/
theorem C5_digest_groups_iff_identical (roster_dict : List (String × String))
    (all_students : Finset String) (st : ClassifyState) (f g : UploadedFile)
    (sidf sidg : String)
    (hf1 : pyStartsWith f.name "~$" = false) (hf2 : pyStartsWith f.name "." = false)
    (hf3 : extract_id (PyVal.pstr f.name) = some sidf) (hf4 : sidf ∈ all_students)
    (hf5 : 100 ≤ f.size)
    (hg1 : pyStartsWith g.name "~$" = false) (hg2 : pyStartsWith g.name "." = false)
    (hg3 : extract_id (PyVal.pstr g.name) = some sidg) (hg4 : sidg ∈ all_students)
    (hg5 : 100 ≤ g.size) :
    (get_md5 f.content = get_md5 g.content ↔ f.content = g.content) ∧
      groupGet (classify_step roster_dict all_students st f).md5_map (get_md5 f.content) =
        groupGet st.md5_map (get_md5 f.content) ++ [(sidf, f.name)] ∧
      groupGet (classify_step roster_dict all_students st g).md5_map (get_md5 g.content) =
        groupGet st.md5_map (get_md5 g.content) ++ [(sidg, g.name)] := by
  refine ⟨Iff.rfl, ?_, ?_⟩
  · rw [classify_step_big roster_dict all_students st f sidf hf1 hf2 hf3 hf4 (by omega)]
    exact groupGet_mapAppend_self _ _ _
  · rw [classify_step_big roster_dict all_students st g sidg hg1 hg2 hg3 hg4 (by omega)]
    exact groupGet_mapAppend_self _ _ _

/-- C5 witness: two 120-byte files from different students whose contents
differ in exactly the first byte get distinct digest keys, and each entry
is appended to the group of its own digest. -/
theorem C5_digest_groups_iff_identical_witness :
    (get_md5 (List.replicate 120 65) = get_md5 (66 :: List.replicate 119 65) ↔
        List.replicate 120 65 = 66 :: List.replicate 119 65) ∧
      groupGet (classify_step exRosterDict exAll initState
            { name := "123456789_x.pdf", content := List.replicate 120 65 }).md5_map
          (get_md5 (List.replicate 120 65)) =
        groupGet initState.md5_map (get_md5 (List.replicate 120 65)) ++
          [("123456789", "123456789_x.pdf")] ∧
      groupGet (classify_step exRosterDict exAll initState
            { name := "987654321_y.pdf", content := 66 :: List.replicate 119 65 }).md5_map
          (get_md5 (66 :: List.replicate 119 65)) =
        groupGet initState.md5_map (get_md5 (66 :: List.replicate 119 65)) ++
          [("987654321", "987654321_y.pdf")] :=
  C5_digest_groups_iff_identical exRosterDict exAll initState
    { name := "123456789_x.pdf", content := List.replicate 120 65 }
    { name := "987654321_y.pdf", content := 66 :: List.replicate 119 65 }
    "123456789" "987654321"
    (by decide) (by decide) (by decide) (by decide) (by decide)
    (by decide) (by decide) (by decide) (by decide) (by decide)

/-- C6: a file with a reserved name prefix, or with no extractable 9-digit
identifier, or whose identifier is not on the roster, leaves the
classification state untouched: it is not recorded as a submission, joins
no digest group, and joins no anomaly list. -/
theorem C6_excluded_contributes_nothing (roster_dict : List (String × String))
    (all_students : Finset String) (st : ClassifyState) (f : UploadedFile)
    (h : pyStartsWith f.name "~$" = true ∨ pyStartsWith f.name "." = true ∨
        extract_id (PyVal.pstr f.name) = none ∨
        ∃ sid, extract_id (PyVal.pstr f.name) = some sid ∧ sid ∉ all_students) :
    classify_step roster_dict all_students st f = st := by
  unfold classify_step
  rcases h with h | h | h | ⟨sid, hs, hmem⟩
  · simp [h]
  · simp [h]
  · by_cases hb : (pyStartsWith f.name "~$" || pyStartsWith f.name ".") = true
    · simp [hb]
    · simp only [hb, if_false, Bool.not_eq_true] at *
      rw [h]
      rfl
  · by_cases hb : (pyStartsWith f.name "~$" || pyStartsWith f.name ".") = true
    · simp [hb]
    · simp only [hb, if_false, Bool.not_eq_true] at *
      rw [hs]
      simp [hmem]

/-- C6 witness: a dotfile, a file without an embedded identifier, and a
file with an off-roster identifier each leave the state unchanged. -/
theorem C6_excluded_contributes_nothing_witness :
    classify_step exRosterDict exAll initState { name := ".DS_Store", content := [1, 2] } =
        initState ∧
      classify_step exRosterDict exAll initState { name := "homework_final.pdf", content := [1, 2] } =
        initState ∧
      classify_step exRosterDict exAll initState { name := "111111111_zz.pdf", content := [1, 2] } =
        initState :=
  ⟨C6_excluded_contributes_nothing exRosterDict exAll initState _
      (Or.inr (Or.inl (by decide))),
    C6_excluded_contributes_nothing exRosterDict exAll initState _
      (Or.inr (Or.inr (Or.inl (by decide)))),
    C6_excluded_contributes_nothing exRosterDict exAll initState _
      (Or.inr (Or.inr (Or.inr ⟨"111111111", by decide, by decide⟩)))⟩

/-- C10: two non-excluded files with the same filename are classified
independently: both record the identifier in the submission list, and the
pair contributes exactly two classification records (anomalous entries or
digest-group entries); but the filename map keeps only the later file, so
when the files differ the earlier one is no longer retrievable by its
filename. -/
theorem C10_same_filename_last_file_retained (roster_dict : List (String × String))
    (all_students : Finset String) (st : ClassifyState) (f g : UploadedFile) (sid : String)
    (hname : f.name = g.name)
    (h1 : pyStartsWith f.name "~$" = false) (h2 : pyStartsWith f.name "." = false)
    (h3 : extract_id (PyVal.pstr f.name) = some sid) (h4 : sid ∈ all_students) :
    (classify_step roster_dict all_students
          (classify_step roster_dict all_students st f) g).submitted_data =
        st.submitted_data ++ [sid, sid] ∧
      dictGet (classify_step roster_dict all_students
          (classify_step roster_dict all_students st f) g).files_map f.name = some g ∧
      (f ≠ g →
        dictGet (classify_step roster_dict all_students
            (classify_step roster_dict all_students st f) g).files_map f.name ≠ some f) ∧
      entryCount (classify_step roster_dict all_students
          (classify_step roster_dict all_students st f) g) = entryCount st + 2 := by
  have hg1 : pyStartsWith g.name "~$" = false := hname ▸ h1
  have hg2 : pyStartsWith g.name "." = false := hname ▸ h2
  have hg3 : extract_id (PyVal.pstr g.name) = some sid := hname ▸ h3
  have hstep : ∀ (st' : ClassifyState) (x : UploadedFile),
      pyStartsWith x.name "~$" = false → pyStartsWith x.name "." = false →
      extract_id (PyVal.pstr x.name) = some sid →
      (classify_step roster_dict all_students st' x).submitted_data =
          st'.submitted_data ++ [sid] ∧
        (classify_step roster_dict all_students st' x).files_map =
          dictInsert st'.files_map x.name x ∧
        entryCount (classify_step roster_dict all_students st' x) = entryCount st' + 1 := by
    intro st' x hx1 hx2 hx3
    by_cases hx5 : x.size < 100
    · rw [classify_step_small roster_dict all_students st' x sid hx1 hx2 hx3 h4 hx5]
      refine ⟨rfl, rfl, ?_⟩
      unfold entryCount
      simp
      omega
    · rw [classify_step_big roster_dict all_students st' x sid hx1 hx2 hx3 h4 hx5]
      refine ⟨rfl, rfl, ?_⟩
      unfold entryCount
      rw [mapAppend_length_sum]
      simp
      omega
  obtain ⟨hfs, hfm, hfc⟩ := hstep st f h1 h2 h3
  obtain ⟨hgs, hgm, hgc⟩ := hstep (classify_step roster_dict all_students st f) g hg1 hg2 hg3
  have hlast : dictGet (classify_step roster_dict all_students
      (classify_step roster_dict all_students st f) g).files_map f.name = some g := by
    rw [hgm, hfm, hname]
    exact dictGet_dictInsert_self _ _ _
  refine ⟨?_, hlast, ?_, ?_⟩
  · rw [hgs, hfs]
    simp
  · intro hfg hcontra
    rw [hlast] at hcontra
    exact hfg (Option.some.inj hcontra).symm
  · rw [hgc, hfc]

/-- C10 witness: two distinct 150-byte files sharing one filename both count
as submissions and contribute two digest entries, while the filename map
retrieves only the second file. -/
theorem C10_same_filename_last_file_retained_witness :
    (classify_step exRosterDict exAll
          (classify_step exRosterDict exAll initState
            { name := "123456789_hw2.pdf", content := List.replicate 150 65 })
          { name := "123456789_hw2.pdf", content := List.replicate 150 66 }).submitted_data =
        initState.submitted_data ++ ["123456789", "123456789"] ∧
      dictGet (classify_step exRosterDict exAll
          (classify_step exRosterDict exAll initState
            { name := "123456789_hw2.pdf", content := List.replicate 150 65 })
          { name := "123456789_hw2.pdf", content := List.replicate 150 66 }).files_map
          "123456789_hw2.pdf" = some { name := "123456789_hw2.pdf", content := List.replicate 150 66 } ∧
      (({ name := "123456789_hw2.pdf", content := List.replicate 150 65 } : UploadedFile) ≠
          { name := "123456789_hw2.pdf", content := List.replicate 150 66 } →
        dictGet (classify_step exRosterDict exAll
            (classify_step exRosterDict exAll initState
              { name := "123456789_hw2.pdf", content := List.replicate 150 65 })
            { name := "123456789_hw2.pdf", content := List.replicate 150 66 }).files_map
            "123456789_hw2.pdf" ≠
          some { name := "123456789_hw2.pdf", content := List.replicate 150 65 }) ∧
      entryCount (classify_step exRosterDict exAll
          (classify_step exRosterDict exAll initState
            { name := "123456789_hw2.pdf", content := List.replicate 150 65 })
          { name := "123456789_hw2.pdf", content := List.replicate 150 66 }) =
        entryCount initState + 2 :=
  C10_same_filename_last_file_retained exRosterDict exAll initState
    { name := "123456789_hw2.pdf", content := List.replicate 150 65 }
    { name := "123456789_hw2.pdf", content := List.replicate 150 66 }
    "123456789" rfl (by decide) (by decide) (by decide) (by decide)

end App
